import Mathlib

/-!
Shallow embedding of the mental-arithmetic game component
(src/src/components/mental-arithmetic-game.tsx): the question generator
(generateNumber, generateQuestion and the batch loop of startGame) and the
state updates of startGame, pauseGame, resumeGame and restartGame together
with the get-ready timeout callback scheduled by startGame.  Each call to
Math.random() is modelled as one entry of a stream of rationals in [0, 1);
the stream index is threaded explicitly through every computation.
-/

namespace MentalMath

/-- The three digit-size classes (the keys of the digitTypes setting). -/
inductive DigitType
  | d1
  | d2
  | d3
  deriving DecidableEq

/-- The operators pushed into a question (the strings + and - of the source). -/
inductive Op
  | plus
  | minus
  deriving DecidableEq

/-- The operations setting: addition | both. -/
inductive OpMode
  | addition
  | both
  deriving DecidableEq

/-- The theme setting (presentation only). -/
inductive ThemeName
  | defaultTheme
  | ocean
  | forest
  | sunset
  | lavender
  deriving DecidableEq

/-- The digitTypes record inside GameSettings. -/
structure DigitTypes where
  digit1 : Bool
  digit2 : Bool
  digit3 : Bool
  deriving DecidableEq

/-- The GameSettings record of the source. -/
structure GameSettings where
  digitTypes : DigitTypes
  operations : OpMode
  numQuestions : Nat
  numbersPerQuestion : Nat
  level : Nat
  theme : ThemeName
  deriving DecidableEq

/-- The Question record of the source. -/
structure Question where
  numbers : List Int
  operations : List Op
  answer : Int
  deriving DecidableEq

/-- One Math.random() outcome per index. -/
abbrev RandStream := Nat → ℚ

/-- Math.random() returns values in the half-open interval [0, 1). -/
def validStream (r : RandStream) : Prop := ∀ i, 0 ≤ r i ∧ r i < 1

/-- Lines 214-219 of generateNumber: the enabledTypes list built from the
settings, with the 1digit substitution when it would be empty. -/
def effectiveTypes (s : GameSettings) : List DigitType :=
  let enabledTypes :=
    (if s.digitTypes.digit1 then [DigitType.d1] else []) ++
      (if s.digitTypes.digit2 then [DigitType.d2] else []) ++
        (if s.digitTypes.digit3 then [DigitType.d3] else [])
  if enabledTypes.length = 0 then [DigitType.d1] else enabledTypes

/-- Lower bound of a digit-size class (the + b offsets of lines 224-228). -/
def classLo : DigitType → Int
  | DigitType.d1 => 1
  | DigitType.d2 => 10
  | DigitType.d3 => 100

/-- Upper bound of a digit-size class. -/
def classHi : DigitType → Int
  | DigitType.d1 => 9
  | DigitType.d2 => 99
  | DigitType.d3 => 999

/-- Lines 213-230, generateNumber: pick a random index into the enabled-class
list, then return a uniform value in the chosen class's range; the result is
paired with the next stream index (two draws are consumed).  An out-of-range
index (impossible for a valid stream) falls through to the final else branch
exactly as the undefined lookup does in the source's if/else-if/else chain. -/
def generateNumber (s : GameSettings) (r : RandStream) (i : Nat) : Int × Nat :=
  let enabledTypes := effectiveTypes s
  let randomType := enabledTypes.get? (Int.floor (r i * (enabledTypes.length : ℚ))).toNat
  if randomType = some DigitType.d1 then
    (Int.floor (r (i + 1) * 9) + 1, i + 2)
  else if randomType = some DigitType.d2 then
    (Int.floor (r (i + 1) * 90) + 10, i + 2)
  else
    (Int.floor (r (i + 1) * 900) + 100, i + 2)

/-- Result of one iteration of the generateQuestion loop body, with repairHit
recording whether the guard condition of line 254 of the source held. -/
structure StepOut where
  nextNumber : Int
  op : Op
  newTotal : Int
  nextIdx : Nat
  repairHit : Bool
  deriving DecidableEq

/-- Lines 241-269: one iteration of the generateQuestion loop.  Draw a
candidate, choose the operator (addition-only forces +, otherwise - is
allowed with probability 1/2 only when runningTotal > nextNumber), then the
subtraction guard of lines 254-260: when the operator is - and the result
would be negative the candidate is redrawn from [1, runningTotal-1] if
runningTotal > 1 and otherwise the operator is downgraded to +; finally the
running total is updated by the chosen operator. -/
def questionStep (s : GameSettings) (r : RandStream) (i : Nat) (runningTotal : Int) :
    StepOut :=
  let gn := generateNumber s r i
  let nextNumber := gn.1
  let chosen : Op × Nat :=
    if s.operations = OpMode.addition then (Op.plus, gn.2)
    else if runningTotal > nextNumber then
      (if r gn.2 < 1 / 2 then Op.plus else Op.minus, gn.2 + 1)
    else (Op.plus, gn.2)
  let op := chosen.1
  if op = Op.minus ∧ runningTotal - nextNumber < 0 then
    if runningTotal > 1 then
      let redrawn := Int.floor (r chosen.2 * ((runningTotal - 1 : Int) : ℚ)) + 1
      { nextNumber := redrawn, op := op, newTotal := runningTotal - redrawn,
        nextIdx := chosen.2 + 1, repairHit := true }
    else
      { nextNumber := nextNumber, op := Op.plus, newTotal := runningTotal + nextNumber,
        nextIdx := chosen.2, repairHit := true }
  else
    { nextNumber := nextNumber, op := op,
      newTotal := if op = Op.plus then runningTotal + nextNumber else runningTotal - nextNumber,
      nextIdx := chosen.2, repairHit := false }

/-- Accumulated output of the generateQuestion loop. -/
structure LoopOut where
  numbers : List Int
  operations : List Op
  answer : Int
  nextIdx : Nat
  repairHit : Bool
  deriving DecidableEq

/-- Lines 240-270: the for-loop of generateQuestion, by recursion on the
number of remaining iterations; numbers and operations are produced in the
order the source pushes them, and repairHit records whether the guard of
line 254 held in any iteration. -/
def questionLoop (s : GameSettings) (r : RandStream) :
    Nat → Nat → Int → LoopOut
  | 0, i, runningTotal =>
    { numbers := [], operations := [], answer := runningTotal, nextIdx := i,
      repairHit := false }
  | k + 1, i, runningTotal =>
    let step := questionStep s r i runningTotal
    let rest := questionLoop s r k step.nextIdx step.newTotal
    { numbers := step.nextNumber :: rest.numbers,
      operations := step.op :: rest.operations,
      answer := rest.answer, nextIdx := rest.nextIdx,
      repairHit := step.repairHit || rest.repairHit }

/-- Lines 233-273, generateQuestion: first operand from generateNumber, then
numbersPerQuestion - 1 loop iterations; returns the Question, the next
stream index, and the ghost flag telling whether the guard of line 254 was
ever hit. -/
def generateQuestion (s : GameSettings) (r : RandStream) (i : Nat) :
    Question × Nat × Bool :=
  let gn := generateNumber s r i
  let res := questionLoop s r (s.numbersPerQuestion - 1) gn.2 gn.1
  ({ numbers := gn.1 :: res.numbers, operations := res.operations, answer := res.answer },
    res.nextIdx, res.repairHit)

/-- Lines 294-297: the batch loop of startGame, generating the given number
of questions in sequence. -/
def generateQuestions (s : GameSettings) (r : RandStream) :
    Nat → Nat → List Question × Nat
  | 0, i => ([], i)
  | k + 1, i =>
    let gq := generateQuestion s r i
    let rest := generateQuestions s r k gq.2.1
    (gq.1 :: rest.1, rest.2)

/-- Applying one operator, as lines 265-269 update runningTotal. -/
def applyOp (t : Int) : Op → Int → Int
  | Op.plus, n => t + n
  | Op.minus, n => t - n

/-- All left-to-right running values: the starting value, then the value
after applying each operator in order. -/
def runningEvals : Int → List Op → List Int → List Int
  | t, [], _ => [t]
  | t, _ :: _, [] => [t]
  | t, op :: ops, n :: ns => t :: runningEvals (applyOp t op n) ops ns

/-- The final left-to-right value. -/
def evalLR : Int → List Op → List Int → Int
  | t, [], _ => t
  | t, _ :: _, [] => t
  | t, op :: ops, n :: ns => evalLR (applyOp t op n) ops ns

/-- The prefix evaluations of a question: first number, then the value after
each operator, the final value included. -/
def prefixEvals (q : Question) : List Int :=
  match q.numbers with
  | [] => []
  | n :: ns => runningEvals n q.operations ns

/-- The left-to-right evaluation of a question's numbers under its operators. -/
def evalQuestion (q : Question) : Int :=
  match q.numbers with
  | [] => 0
  | n :: ns => evalLR n q.operations ns

/-- The gameState values of the source. -/
inductive GState
  | setup
  | playing
  | paused
  | results
  deriving DecidableEq

/-- The React state variables of the component (lines 62-76). -/
structure GameM where
  gameState : GState
  nextQuestionNumber : Nat
  currentQuestion : Nat
  currentNumberIndex : Nat
  currentNumbers : List Int
  currentOperations : List Op
  showingAnswer : Bool
  calculatingAnswer : Bool
  showingGetReady : Bool
  flashingBetweenNumbers : Bool
  answer : Int
  allQuestions : List Question
  displayNumber : String
  isPaused : Bool
  deriving DecidableEq

/-- The useState initial values of lines 62-76. -/
def initialState : GameM :=
  { gameState := GState.setup, nextQuestionNumber := 1, currentQuestion := 0,
    currentNumberIndex := 0, currentNumbers := [], currentOperations := [],
    showingAnswer := false, calculatingAnswer := false, showingGetReady := false,
    flashingBetweenNumbers := false, answer := 0, allQuestions := [],
    displayNumber := "", isPaused := false }

/-- Line 277: whether some digit type is enabled. -/
def hasDigitType (s : GameSettings) : Bool :=
  s.digitTypes.digit1 || s.digitTypes.digit2 || s.digitTypes.digit3

/-- Lines 294-307: the synchronous part of startGame after validation: the
batch is generated and the state variables are set; the generated questions
list is returned alongside because the timeout callback closes over it. -/
def startGameSync (s : GameSettings) (r : RandStream) (i : Nat) (st : GameM) :
    GameM × List Question :=
  let questions := (generateQuestions s r s.numQuestions i).1
  ({ st with
      allQuestions := questions, currentQuestion := 0, nextQuestionNumber := 1,
      currentNumberIndex := 0, calculatingAnswer := false, showingAnswer := false,
      showingGetReady := true, flashingBetweenNumbers := false, isPaused := false,
      gameState := GState.playing }, questions)

/-- Lines 276-307: startGame with its three validation alerts; an alert
leaves the state untouched and the game does not start. -/
def startGame (s : GameSettings) (r : RandStream) (i : Nat) (st : GameM) :
    Except String (GameM × List Question) :=
  if !hasDigitType s then
    Except.error ("Please select at least one number type!")
  else if s.numbersPerQuestion < 2 then
    Except.error ("Numbers per question must be at least 2!")
  else if s.numQuestions < 1 then
    Except.error ("Number of questions must be at least 1!")
  else
    Except.ok (startGameSync s r i st)

/-- Lines 309-318: the callback of the 1000 ms get-ready timeout scheduled by
startGame, closing over the questions list it captured. -/
def startGameTimeout (questions : List Question) (st : GameM) : GameM :=
  let st1 := { st with showingGetReady := false }
  match questions with
  | [] => st1
  | q :: _ =>
    { st1 with
        currentNumbers := q.numbers, currentOperations := q.operations,
        answer := q.answer, displayNumber := toString (q.numbers.headD 0) }

/-- Lines 321-325: pauseGame. -/
def pauseGame (st : GameM) : GameM :=
  { st with isPaused := true, gameState := GState.paused }

/-- Lines 327-331: resumeGame. -/
def resumeGame (st : GameM) : GameM :=
  { st with isPaused := false, gameState := GState.playing }

/-- Lines 333-344: restartGame. -/
def restartGame (st : GameM) : GameM :=
  { st with
    gameState := GState.setup, currentQuestion := 0, nextQuestionNumber := 1,
    currentNumberIndex := 0, showingAnswer := false, calculatingAnswer := false,
    showingGetReady := false, flashingBetweenNumbers := false, isPaused := false,
    allQuestions := [] }

/-- The constantly-zero random stream, used for concrete evaluations. -/
def zeroStream : RandStream := fun _ => 0

/-- The concrete configuration of the spec's first test scenario: 1-digit
only, addition only, one question of three numbers, level 1. -/
def exSettings : GameSettings :=
  { digitTypes := { digit1 := true, digit2 := false, digit3 := false },
    operations := OpMode.addition, numQuestions := 1, numbersPerQuestion := 3,
    level := 1, theme := ThemeName.defaultTheme }

/-- exSettings with only the level changed. -/
def exSettingsLevel5 : GameSettings := { exSettings with level := 5 }

/-- A configuration with every digit-size class disabled. -/
def noDigitSettings : GameSettings :=
  { digitTypes := { digit1 := false, digit2 := false, digit3 := false },
    operations := OpMode.both, numQuestions := 1, numbersPerQuestion := 2,
    level := 1, theme := ThemeName.defaultTheme }

/-- The initial state switched to the playing screen. -/
def playingState : GameM := { initialState with gameState := GState.playing }

/-- The enabled-class list is never empty: the substitution of line 219. -/
theorem effectiveTypes_ne_nil (s : GameSettings) : effectiveTypes s ≠ [] := by
  unfold effectiveTypes
  cases h1 : s.digitTypes.digit1 <;> cases h2 : s.digitTypes.digit2 <;>
    cases h3 : s.digitTypes.digit3 <;> simp

/-- Math.floor of a [0,1) draw scaled by a positive integer lies in [0, z). -/
theorem floor_mul_bounds (q : ℚ) (z : Int) (h0 : 0 ≤ q) (h1 : q < 1) (hz : 0 < z) :
    0 ≤ Int.floor (q * (z : ℚ)) ∧ Int.floor (q * (z : ℚ)) < z := by
  constructor
  · exact Int.floor_nonneg.mpr (mul_nonneg h0 (by exact_mod_cast hz.le))
  · apply Int.floor_lt.mpr
    have hlt : q * (z : ℚ) < 1 * (z : ℚ) :=
      mul_lt_mul_of_pos_right h1 (by exact_mod_cast hz)
    simpa using hlt

/-- For a valid stream, generateNumber returns a value inside the range of
one of the effectively enabled digit-size classes. -/
theorem generateNumber_spec (s : GameSettings) (r : RandStream) (i : Nat)
    (h : validStream r) :
    ∃ t ∈ effectiveTypes s,
      classLo t ≤ (generateNumber s r i).1 ∧ (generateNumber s r i).1 ≤ classHi t := by
  obtain ⟨h0, h1⟩ := h i
  obtain ⟨g0, g1⟩ := h (i + 1)
  have hlen : 0 < (effectiveTypes s).length :=
    List.length_pos.mpr (effectiveTypes_ne_nil s)
  have hcast := floor_mul_bounds (r i) ((effectiveTypes s).length : Int) h0 h1
    (by exact_mod_cast hlen)
  push_cast at hcast
  obtain ⟨hf0, hf1⟩ := hcast
  have hidx : (Int.floor (r i * ((effectiveTypes s).length : ℚ))).toNat <
      (effectiveTypes s).length := by omega
  have hget := List.get?_eq_get hidx
  have hmem := List.get_mem (effectiveTypes s) _ hidx
  have h9 := floor_mul_bounds (r (i + 1)) 9 g0 g1 (by norm_num)
  have h90 := floor_mul_bounds (r (i + 1)) 90 g0 g1 (by norm_num)
  have h900 := floor_mul_bounds (r (i + 1)) 900 g0 g1 (by norm_num)
  push_cast at h9 h90 h900
  refine ⟨(effectiveTypes s).get ⟨_, hidx⟩, hmem, ?_⟩
  cases ht : (effectiveTypes s).get ⟨_, hidx⟩ with
  | d1 =>
    rw [ht] at hget
    simp only [generateNumber, hget, classLo, classHi]
    norm_num
    omega
  | d2 =>
    rw [ht] at hget
    simp only [generateNumber, hget, classLo, classHi]
    simp only [Option.some.injEq, reduceCtorEq, if_false, if_true, ite_true, ite_false]
    omega
  | d3 =>
    rw [ht] at hget
    simp only [generateNumber, hget, classLo, classHi]
    simp only [Option.some.injEq, reduceCtorEq, if_false, if_true, ite_true, ite_false]
    omega

/-- Every class lower bound is at least 1. -/
theorem classLo_pos (t : DigitType) : 1 ≤ classLo t := by
  cases t <;> simp [classLo]

/-- For a valid stream, generateNumber returns at least 1. -/
theorem generateNumber_pos (s : GameSettings) (r : RandStream) (i : Nat)
    (h : validStream r) : 1 ≤ (generateNumber s r i).1 := by
  obtain ⟨t, _, hlo, _⟩ := generateNumber_spec s r i h
  have := classLo_pos t
  omega

/-- The constantly-zero stream is a valid Math.random() trace. -/
theorem zeroStream_valid : validStream zeroStream := by
  intro i
  constructor
  · simp [zeroStream]
  · norm_num [zeroStream]

/-- Structural facts about one loop iteration, with no assumption on the
stream: the guard of line 254 never holds (so repairHit is false and the
candidate is the generateNumber draw), the new total is the old total under
the chosen operator, a minus operator implies the total strictly exceeded
the candidate, and addition-only mode forces plus. -/
theorem questionStep_cases (s : GameSettings) (r : RandStream) (i : Nat) (total : Int) :
    (questionStep s r i total).repairHit = false ∧
    (questionStep s r i total).nextNumber = (generateNumber s r i).1 ∧
    (questionStep s r i total).newTotal =
      applyOp total (questionStep s r i total).op (questionStep s r i total).nextNumber ∧
    ((questionStep s r i total).op = Op.minus → (generateNumber s r i).1 < total) ∧
    (s.operations = OpMode.addition → (questionStep s r i total).op = Op.plus) := by
  have hnp : ∀ p : Prop, ¬ (Op.plus = Op.minus ∧ p) := fun p h => nomatch h.1
  by_cases hmode : s.operations = OpMode.addition
  · simp only [questionStep, if_pos hmode]
    rw [if_neg (hnp _)]
    simp [applyOp]
  · by_cases hgt : total > (generateNumber s r i).1
    · by_cases hr : r (generateNumber s r i).2 < 1 / 2
      · simp only [questionStep, if_neg hmode, if_pos hgt, if_pos hr]
        rw [if_neg (hnp _)]
        simp [applyOp]
      · have hng : ¬ (True ∧ total - (generateNumber s r i).1 < 0) := by
          intro hc
          exact absurd hc.2 (by omega)
        simp only [questionStep, if_neg hmode, if_pos hgt, if_neg hr]
        rw [if_neg hng]
        simp [applyOp]
        exact ⟨hgt, hmode⟩
    · simp only [questionStep, if_neg hmode, if_neg hgt]
      rw [if_neg (hnp _)]
      simp [applyOp]

/-- Structural facts about the loop, with no assumption on the stream:
lengths of the produced lists, the answer as the left-to-right evaluation of
the produced lists from the incoming total, repairHit never set, and
addition-only mode producing only plus operators. -/
theorem questionLoop_struct (s : GameSettings) (r : RandStream) :
    ∀ (k i : Nat) (total : Int),
      (questionLoop s r k i total).numbers.length = k ∧
      (questionLoop s r k i total).operations.length = k ∧
      (questionLoop s r k i total).answer =
        evalLR total (questionLoop s r k i total).operations
          (questionLoop s r k i total).numbers ∧
      (questionLoop s r k i total).repairHit = false ∧
      (s.operations = OpMode.addition →
        ∀ op ∈ (questionLoop s r k i total).operations, op = Op.plus) := by
  intro k
  induction k with
  | zero => intro i total; simp [questionLoop, evalLR]
  | succ k ih =>
    intro i total
    obtain ⟨hrep, _, hnt, _, hplus⟩ := questionStep_cases s r i total
    obtain ⟨l1, l2, hans, hrep2, hplus2⟩ :=
      ih (questionStep s r i total).nextIdx (questionStep s r i total).newTotal
    simp only [questionLoop]
    refine ⟨by simp [l1], by simp [l2], ?_, by simp [hrep, hrep2], ?_⟩
    · simp only [evalLR]
      rw [← hnt]
      exact hans
    · intro hmode op hop
      rcases List.mem_cons.mp hop with hop | hop
      · rw [hop]; exact hplus hmode
      · exact hplus2 hmode op hop

/-- Bound facts about the loop for a valid stream and a positive incoming
total: every running value stays at least 1, every produced candidate lies
in an effectively enabled class, and the final answer is at least 1. -/
theorem questionLoop_bounds (s : GameSettings) (r : RandStream) (h : validStream r) :
    ∀ (k i : Nat) (total : Int), 1 ≤ total →
      (∀ x ∈ runningEvals total (questionLoop s r k i total).operations
          (questionLoop s r k i total).numbers, 1 ≤ x) ∧
      (∀ n ∈ (questionLoop s r k i total).numbers,
        ∃ t ∈ effectiveTypes s, classLo t ≤ n ∧ n ≤ classHi t) ∧
      1 ≤ (questionLoop s r k i total).answer := by
  intro k
  induction k with
  | zero =>
    intro i total ht
    refine ⟨?_, by simp [questionLoop], by simpa [questionLoop] using ht⟩
    intro x hx
    simp [questionLoop, runningEvals] at hx
    omega
  | succ k ih =>
    intro i total ht
    obtain ⟨hrep, hnn, hnt, hminus, _⟩ := questionStep_cases s r i total
    have hnn_pos : 1 ≤ (questionStep s r i total).nextNumber := by
      rw [hnn]; exact generateNumber_pos s r i h
    have hnt_pos : 1 ≤ (questionStep s r i total).newTotal := by
      rw [hnt]
      cases hop : (questionStep s r i total).op with
      | plus => simp only [applyOp]; omega
      | minus =>
        have hlt := hminus hop
        rw [← hnn] at hlt
        simp only [applyOp]
        omega
    obtain ⟨b1, b2, b3⟩ :=
      ih (questionStep s r i total).nextIdx (questionStep s r i total).newTotal hnt_pos
    simp only [questionLoop]
    refine ⟨?_, ?_, b3⟩
    · intro x hx
      simp only [runningEvals] at hx
      rw [← hnt] at hx
      rcases List.mem_cons.mp hx with hx | hx
      · omega
      · exact b1 x hx
    · intro n hn
      rcases List.mem_cons.mp hn with hn | hn
      · rw [hn, hnn]; exact generateNumber_spec s r i h
      · exact b2 n hn

/-- An all-plus operator list of matching length evaluates to the starting
value plus the sum of the operands. -/
theorem evalLR_all_plus (t : Int) (ops : List Op) (ns : List Int)
    (hp : ∀ op ∈ ops, op = Op.plus) (hl : ops.length = ns.length) :
    evalLR t ops ns = t + ns.sum := by
  induction ops generalizing t ns with
  | nil =>
    cases ns with
    | nil => simp [evalLR]
    | cons n ns => simp at hl
  | cons op ops ih =>
    cases ns with
    | nil => simp at hl
    | cons n ns =>
      have hop : op = Op.plus := hp op (List.mem_cons_self _ _)
      simp only [evalLR, hop, applyOp, List.sum_cons]
      rw [ih (t + n) ns (fun o ho => hp o (List.mem_cons_of_mem _ ho)) (by simpa using hl)]
      ring

/-- Shape and operator facts for the batch loop of startGame. -/
theorem generateQuestions_struct (s : GameSettings) (r : RandStream) :
    ∀ (k i : Nat),
      (generateQuestions s r k i).1.length = k ∧
      ∀ q ∈ (generateQuestions s r k i).1,
        q.numbers.length = s.numbersPerQuestion - 1 + 1 ∧
        q.operations.length = s.numbersPerQuestion - 1 ∧
        (s.operations = OpMode.addition → ∀ op ∈ q.operations, op = Op.plus) := by
  intro k
  induction k with
  | zero => intro i; simp [generateQuestions]
  | succ k ih =>
    intro i
    obtain ⟨hlen, hall⟩ := ih (generateQuestion s r i).2.1
    simp only [generateQuestions]
    refine ⟨by simp [hlen], ?_⟩
    intro q hq
    rcases List.mem_cons.mp hq with hq | hq
    · obtain ⟨l1, l2, _, _, hplus⟩ := questionLoop_struct s r (s.numbersPerQuestion - 1)
        (generateNumber s r i).2 (generateNumber s r i).1
      subst hq
      refine ⟨?_, ?_, ?_⟩
      · simp [generateQuestion, l1]
      · simp [generateQuestion, l2]
      · intro hmode op hop
        simp only [generateQuestion] at hop
        exact hplus hmode op hop
    · exact hall q hq

/-- C1: for a valid random stream, every left-to-right prefix evaluation of a
generated question (the first number, then the value after each operator in
order, the final value included) is nonnegative, and the stored answer is
nonnegative. -/
theorem generateQuestion_prefix_nonneg (s : GameSettings) (r : RandStream) (i : Nat)
    (h : validStream r) :
    (∀ x ∈ prefixEvals (generateQuestion s r i).1, 0 ≤ x) ∧
    0 ≤ (generateQuestion s r i).1.answer := by
  have h0 : 1 ≤ (generateNumber s r i).1 := generateNumber_pos s r i h
  obtain ⟨b1, _, b3⟩ := questionLoop_bounds s r h (s.numbersPerQuestion - 1)
    (generateNumber s r i).2 (generateNumber s r i).1 h0
  constructor
  · intro x hx
    simp only [generateQuestion, prefixEvals] at hx
    exact le_trans (by norm_num) (b1 x hx)
  · simp only [generateQuestion]
    omega

/-- C1 witness: the hypotheses hold at the spec's concrete scenario settings
with the constantly-zero stream. -/
theorem generateQuestion_prefix_nonneg_witness :
    0 ≤ (generateQuestion exSettings zeroStream 0).1.answer :=
  (generateQuestion_prefix_nonneg exSettings zeroStream 0 zeroStream_valid).2

/-- C2: the stored answer equals the left-to-right evaluation of the numbers
list under the operations list, and in addition-only mode it equals the sum
of all operands. -/
theorem generateQuestion_answer_eval (s : GameSettings) (r : RandStream) (i : Nat) :
    (generateQuestion s r i).1.answer = evalQuestion (generateQuestion s r i).1 ∧
    (s.operations = OpMode.addition →
      (generateQuestion s r i).1.answer = (generateQuestion s r i).1.numbers.sum) := by
  obtain ⟨l1, l2, hans, _, hplus⟩ := questionLoop_struct s r (s.numbersPerQuestion - 1)
    (generateNumber s r i).2 (generateNumber s r i).1
  constructor
  · simp only [generateQuestion, evalQuestion]
    exact hans
  · intro hmode
    simp only [generateQuestion, List.sum_cons]
    rw [hans, evalLR_all_plus _ _ _ (hplus hmode) (l2.trans l1.symm)]

/-- C2 witness: the addition-only premise holds at the concrete scenario
settings with the constantly-zero stream. -/
theorem generateQuestion_answer_eval_witness :
    (generateQuestion exSettings zeroStream 0).1.answer =
      evalQuestion (generateQuestion exSettings zeroStream 0).1 ∧
    (generateQuestion exSettings zeroStream 0).1.answer =
      (generateQuestion exSettings zeroStream 0).1.numbers.sum :=
  ⟨(generateQuestion_answer_eval exSettings zeroStream 0).1,
    (generateQuestion_answer_eval exSettings zeroStream 0).2 rfl⟩

/-- C3: for a valid stream every operand of a generated question lies in the
range of one of the effectively enabled digit-size classes, and with no
class enabled the effective list is exactly the 1-digit class (range [1,9]). -/
theorem generateQuestion_operands_in_class (s : GameSettings) (r : RandStream) (i : Nat)
    (h : validStream r) :
    (∀ n ∈ (generateQuestion s r i).1.numbers,
      ∃ t ∈ effectiveTypes s, classLo t ≤ n ∧ n ≤ classHi t) ∧
    (s.digitTypes = { digit1 := false, digit2 := false, digit3 := false } →
      effectiveTypes s = [DigitType.d1]) := by
  have h0 : 1 ≤ (generateNumber s r i).1 := generateNumber_pos s r i h
  obtain ⟨_, b2, _⟩ := questionLoop_bounds s r h (s.numbersPerQuestion - 1)
    (generateNumber s r i).2 (generateNumber s r i).1 h0
  constructor
  · intro n hn
    simp only [generateQuestion] at hn
    rcases List.mem_cons.mp hn with hn | hn
    · rw [hn]
      exact generateNumber_spec s r i h
    · exact b2 n hn
  · intro hd
    simp [effectiveTypes, hd]

/-- C3 witness: the stream hypothesis holds at the concrete scenario settings
with the constantly-zero stream. -/
theorem generateQuestion_operands_in_class_witness :
    validStream zeroStream ∧
    (∀ n ∈ (generateQuestion exSettings zeroStream 0).1.numbers,
      ∃ t ∈ effectiveTypes exSettings, classLo t ≤ n ∧ n ≤ classHi t) :=
  ⟨zeroStream_valid,
    (generateQuestion_operands_in_class exSettings zeroStream 0 zeroStream_valid).1⟩

/-- C4: in addition-only mode every operator of every question in the batch
generated by startGame is plus. -/
theorem generateQuestions_addition_only (s : GameSettings) (r : RandStream) (i : Nat)
    (hmode : s.operations = OpMode.addition) :
    ∀ q ∈ (generateQuestions s r s.numQuestions i).1,
      ∀ op ∈ q.operations, op = Op.plus := by
  intro q hq
  exact ((generateQuestions_struct s r s.numQuestions i).2 q hq).2.2 hmode

/-- C4 witness: the addition-only premise holds at the concrete scenario
settings with the constantly-zero stream. -/
theorem generateQuestions_addition_only_witness :
    exSettings.operations = OpMode.addition ∧
    (∀ q ∈ (generateQuestions exSettings zeroStream exSettings.numQuestions 0).1,
      ∀ op ∈ q.operations, op = Op.plus) :=
  ⟨rfl, generateQuestions_addition_only exSettings zeroStream 0 rfl⟩

/-- C5: a batch generated with problemCount questions has exactly that many
questions, and with numbersPerQuestion at least 2 each question has exactly
numbersPerQuestion numbers and numbersPerQuestion minus one operators. -/
theorem generateQuestions_batch_shape (s : GameSettings) (r : RandStream) (i : Nat)
    (hN : 2 ≤ s.numbersPerQuestion) :
    (generateQuestions s r s.numQuestions i).1.length = s.numQuestions ∧
    ∀ q ∈ (generateQuestions s r s.numQuestions i).1,
      q.numbers.length = s.numbersPerQuestion ∧
      q.operations.length = s.numbersPerQuestion - 1 := by
  obtain ⟨hlen, hall⟩ := generateQuestions_struct s r s.numQuestions i
  refine ⟨hlen, ?_⟩
  intro q hq
  obtain ⟨hn, ho, _⟩ := hall q hq
  exact ⟨by omega, ho⟩

/-- C5 witness: the size premise holds at the concrete scenario settings with
the constantly-zero stream. -/
theorem generateQuestions_batch_shape_witness :
    (generateQuestions exSettings zeroStream exSettings.numQuestions 0).1.length =
      exSettings.numQuestions ∧
    ∀ q ∈ (generateQuestions exSettings zeroStream exSettings.numQuestions 0).1,
      q.numbers.length = exSettings.numbersPerQuestion ∧
      q.operations.length = exSettings.numbersPerQuestion - 1 :=
  generateQuestions_batch_shape exSettings zeroStream 0 (by norm_num [exSettings])

/-- C10: the subtraction-guard repair of lines 254-260 is dead code: for any
settings and any stream the ghost flag recording whether the guard condition
of line 254 ever held is false, so the candidate is never redrawn from
[1, runningTotal-1] and the downgrade to plus never executes. -/
theorem repair_branch_unreachable (s : GameSettings) (r : RandStream) (i : Nat) :
    (generateQuestion s r i).2.2 = false := by
  obtain ⟨_, _, _, hrep, _⟩ := questionLoop_struct s r (s.numbersPerQuestion - 1)
    (generateNumber s r i).2 (generateNumber s r i).1
  simp only [generateQuestion]
  exact hrep

/-- C6: counterexample trace for the cancellation claim: start a game (which
schedules the 1000 ms get-ready timeout over the captured questions list),
invoke Restart before the timeout fires, then let the orphaned callback
fire; it mutates the component state (it installs the first question's
numbers, operations, answer and display string), so it is neither a no-op
nor suppressed after Restart. -/
theorem restart_orphan_timeout_mutates :
    startGameTimeout (startGameSync exSettings zeroStream 0 initialState).2
        (restartGame (startGameSync exSettings zeroStream 0 initialState).1) ≠
      restartGame (startGameSync exSettings zeroStream 0 initialState).1 := by
  intro hEq
  have hL : (startGameTimeout (startGameSync exSettings zeroStream 0 initialState).2
      (restartGame (startGameSync exSettings zeroStream 0
        initialState).1)).currentNumbers.length = 3 := rfl
  have hR : (restartGame (startGameSync exSettings zeroStream 0
      initialState).1).currentNumbers.length = 0 := rfl
  rw [hEq, hR] at hL
  omega

/-- C7: counterexample: starting a game with every digit-size class disabled
is rejected with the user-facing alert of line 279 and the game does not
start, contradicting the claim that the game starts silently. -/
theorem startGame_empty_digits_rejected :
    startGame noDigitSettings zeroStream 0 initialState =
      Except.error ("Please select at least one number type!") := rfl

/-- C7 amended: with every digit-size class disabled, startGame rejects with
the user-facing alert and the game does not start; the silent 1-digit
substitution lives only inside generateNumber, whose effective class list
becomes exactly the 1-digit class, so its draws lie in [1, 9]. -/
theorem empty_digits_alert_and_default (s : GameSettings) (r : RandStream) (i : Nat)
    (st : GameM)
    (hd : s.digitTypes = { digit1 := false, digit2 := false, digit3 := false })
    (h : validStream r) :
    startGame s r i st = Except.error ("Please select at least one number type!") ∧
    effectiveTypes s = [DigitType.d1] ∧
    1 ≤ (generateNumber s r i).1 ∧ (generateNumber s r i).1 ≤ 9 := by
  have heff : effectiveTypes s = [DigitType.d1] := by simp [effectiveTypes, hd]
  refine ⟨?_, heff, ?_⟩
  · simp [startGame, hasDigitType, hd]
  · obtain ⟨t, htmem, hlo, hhi⟩ := generateNumber_spec s r i h
    rw [heff] at htmem
    simp only [List.mem_singleton] at htmem
    subst htmem
    simpa [classLo, classHi] using ⟨hlo, hhi⟩

/-- C7 witness: the premises of the amended claim hold at the all-disabled
settings with the constantly-zero stream. -/
theorem empty_digits_alert_and_default_witness :
    startGame noDigitSettings zeroStream 0 initialState =
      Except.error ("Please select at least one number type!") ∧
    effectiveTypes noDigitSettings = [DigitType.d1] ∧
    1 ≤ (generateNumber noDigitSettings zeroStream 0).1 ∧
    (generateNumber noDigitSettings zeroStream 0).1 ≤ 9 :=
  empty_digits_alert_and_default noDigitSettings zeroStream 0 initialState rfl
    zeroStream_valid

/-- C8: pausing and then resuming with no timer callback firing in between
changes only the paused/playing indication and restores it: pauseGame
touches exactly isPaused and gameState, and resumeGame after pauseGame is
the identity on a playing, unpaused state, so the cursor (currentQuestion,
currentNumberIndex, the phase flags), the questions, the displayed value and
the answer are unchanged. -/
theorem pause_resume_roundtrip (st : GameM) (h1 : st.gameState = GState.playing)
    (h2 : st.isPaused = false) :
    pauseGame st = { st with isPaused := true, gameState := GState.paused } ∧
    resumeGame (pauseGame st) = st := by
  refine ⟨rfl, ?_⟩
  cases st
  simp_all [pauseGame, resumeGame]

/-- C8 witness: the premises hold at the initial state switched to playing. -/
theorem pause_resume_roundtrip_witness :
    pauseGame playingState =
      { playingState with isPaused := true, gameState := GState.paused } ∧
    resumeGame (pauseGame playingState) = playingState :=
  pause_resume_roundtrip playingState rfl rfl

/-- effectiveTypes reads only the digitTypes field of the settings. -/
theorem effectiveTypes_congr {s1 s2 : GameSettings} (hd : s1.digitTypes = s2.digitTypes) :
    effectiveTypes s1 = effectiveTypes s2 := by
  unfold effectiveTypes
  rw [hd]

/-- generateNumber reads only the digitTypes field of the settings. -/
theorem generateNumber_congr {s1 s2 : GameSettings} (hd : s1.digitTypes = s2.digitTypes)
    (r : RandStream) (i : Nat) : generateNumber s1 r i = generateNumber s2 r i := by
  simp only [generateNumber]
  rw [effectiveTypes_congr hd]

/-- One loop iteration reads only the digitTypes and operations fields. -/
theorem questionStep_congr {s1 s2 : GameSettings} (hd : s1.digitTypes = s2.digitTypes)
    (ho : s1.operations = s2.operations) (r : RandStream) (i : Nat) (total : Int) :
    questionStep s1 r i total = questionStep s2 r i total := by
  simp only [questionStep]
  rw [generateNumber_congr hd, ho]

/-- The loop reads only the digitTypes and operations fields. -/
theorem questionLoop_congr {s1 s2 : GameSettings} (hd : s1.digitTypes = s2.digitTypes)
    (ho : s1.operations = s2.operations) (r : RandStream) :
    ∀ (k i : Nat) (total : Int), questionLoop s1 r k i total = questionLoop s2 r k i total := by
  intro k
  induction k with
  | zero => intro i total; rfl
  | succ k ih =>
    intro i total
    simp only [questionLoop]
    rw [questionStep_congr hd ho, ih]

/-- C9: the level setting has no effect on number generation: two settings
that agree on everything the generator reads (digitTypes, operations,
numbersPerQuestion) but may differ in level produce, against the same random
outcomes, identical generateNumber draws and identical questions (operands,
operators and answer). -/
theorem level_no_effect_on_generation (s1 s2 : GameSettings) (r : RandStream) (i : Nat)
    (hd : s1.digitTypes = s2.digitTypes) (ho : s1.operations = s2.operations)
    (hn : s1.numbersPerQuestion = s2.numbersPerQuestion) :
    generateNumber s1 r i = generateNumber s2 r i ∧
    generateQuestion s1 r i = generateQuestion s2 r i := by
  refine ⟨generateNumber_congr hd r i, ?_⟩
  simp only [generateQuestion]
  rw [generateNumber_congr hd, hn, questionLoop_congr hd ho]

/-- C9 witness: the premises hold for the concrete scenario settings at level
1 and the same settings at level 5. -/
theorem level_no_effect_on_generation_witness :
    generateNumber exSettings zeroStream 0 = generateNumber exSettingsLevel5 zeroStream 0 ∧
    generateQuestion exSettings zeroStream 0 = generateQuestion exSettingsLevel5 zeroStream 0 :=
  level_no_effect_on_generation exSettings exSettingsLevel5 zeroStream 0 rfl rfl rfl

end MentalMath
